import Mathlib

/-!
Verification development for the voice-cloning job pipeline
(`voice_agents`): shallow embedding of the job store (`api/jobs.py`),
the policy guard and orchestrator (`api/orchestrator.py`), the quality
control tool (`tools/quality_control_tool.py`), the cached TTS tool
(`tools/elevenlabs_tool.py`) and the simple TTS helper
(`api/tts_utils.py`), together with theorems settling the specified
properties.

Modelling conventions:
- Python floats are modelled as `Rat` (exact arithmetic; the numeric
  literals of the source are all exactly representable).
- Python dict payloads are modelled as structures of `Option` fields;
  `dict.get(k, d)` becomes `Option.getD`.
- External collaborators (filesystem, whisper ASR, librosa embeddings,
  the ElevenLabs client) are modelled as oracle parameters; a call that
  may raise is an `Except String` value supplied by the oracle.
- `datetime.utcnow()` is modelled by a monotone `Nat` clock in the
  store state.
-/

/-- String-keyed finite maps used to model the in-memory job index and
the per-job files on disk. -/
def StrMap (α : Type) : Type := String → Option α

def StrMap.empty {α : Type} : StrMap α := fun _ => none

def StrMap.set {α : Type} (m : StrMap α) (k : String) (v : α) : StrMap α :=
  fun k' => if k' = k then some v else m k'

def StrMap.del {α : Type} (m : StrMap α) (k : String) : StrMap α :=
  fun k' => if k' = k then none else m k'

/-! ### Data model (payload and job record, `api/jobs.py` / `api/main.py`) -/

/-- `limits` sub-dict of the payload (`CloneLimits` in `api/main.py`);
`daily_char_limit` is never read by the core and is omitted. -/
structure Limits where
  max_text_length : Option Int := none
deriving DecidableEq

/-- `qc` sub-dict of the payload (`CloneQC` in `api/main.py`). -/
structure QcConfig where
  max_wer : Option Rat := none
  min_cosine : Option Rat := none
  cosine_bump_similarity : Option Rat := none
  similarity_cap : Option Rat := none
  cosine_bump_stability : Option Rat := none
  stability_cap : Option Rat := none
deriving DecidableEq

/-- `defaults` sub-dict of the payload (`DefaultsModel` in `api/main.py`). -/
structure Defaults where
  stability : Option Rat := none
  dialogue_stability : Option Rat := none
  similarity_boost : Option Rat := none
  style : Option Rat := none
  speed : Option Rat := none
deriving DecidableEq

/-- The job payload dict as read by `_policy_guard` and `run_clone_job`. -/
structure Payload where
  provider : Option String := none
  consent_flag : Option Bool := none
  text : Option String := none
  limits : Option Limits := none
  raw_audio_path : Option String := none
  voice_id : Option String := none
  mode : Option String := none
  qc : Option QcConfig := none
  defaults : Option Defaults := none
deriving DecidableEq

/-- QC metrics dict built by `QualityControlTool._run`. -/
structure Metrics where
  wer : Rat
  speaker_cosine : Rat
  transcript : String
deriving DecidableEq

/-- `settings_used` dict of the orchestrator's result assembly. -/
structure SettingsUsed where
  stability : Rat
  similarity_boost : Rat
  style : Rat
  speed : Rat
deriving DecidableEq

/-- `result_payload` dict assembled at the end of `run_clone_job`
(spread of `ok_status` plus decision, metrics and paths). -/
structure ResultRecord where
  ok : Bool
  reason : String
  decision : String
  metrics : Option Metrics := none
  clean_wav_path : Option String := none
  gen_wav_path : String
  settings_used : SettingsUsed
deriving DecidableEq

/-- One entry of the append-only per-job event log (`add_event`). -/
structure JobEvent where
  time : Nat
  message : String
  stage : Option String := none
  data : Option (List (String × String)) := none
deriving DecidableEq

/-- The job record dict created by `create_job`. -/
structure Job where
  id : String
  status : String
  created_at : Nat
  updated_at : Nat
  payload : Payload
  artifacts : List (String × String) := []
  events : List JobEvent := []
  error : Option String := none
  result : Option ResultRecord := none
deriving DecidableEq

/-! ### Job store (`api/jobs.py`)

The store keeps an in-memory index `_jobs` (here `mem`), and persists
each job as one JSON file per job id under the state directory.
`_persist` writes the whole record to `"<id>.json.tmp"` and then
`os.replace`s it onto `"<id>.json"`; we model the two groups of files
as the maps `tmpFiles` and `disk` keyed by job id. -/

structure StoreState where
  mem : StrMap Job
  tmpFiles : StrMap Job
  disk : StrMap Job
  clock : Nat

def emptyStore : StoreState :=
  { mem := StrMap.empty, tmpFiles := StrMap.empty, disk := StrMap.empty, clock := 0 }

/-- `_persist(job)`: write the full record to the temporary path, then
atomically rename it into place (`os.replace`). -/
def persist (j : Job) (st : StoreState) : StoreState :=
  let st1 := { st with tmpFiles := st.tmpFiles.set j.id j }
  { st1 with disk := st1.disk.set j.id j, tmpFiles := st1.tmpFiles.del j.id }

/-- `create_job(payload)`: fresh record with status `"queued"`, stored in
the index and persisted before returning.  The source draws the id from
`uuid4`; the id is a parameter here. -/
def create_job (jid : String) (p : Payload) (st : StoreState) : Job × StoreState :=
  let j : Job := { id := jid, status := "queued", created_at := st.clock,
                   updated_at := st.clock, payload := p }
  let st' := { st with mem := st.mem.set jid j, clock := st.clock + 1 }
  (j, persist j st')

/-- The keyword updates accepted by `update_job` as used in this
codebase (`status=`, `error=`, `result=`). -/
structure JobUpdate where
  status : Option String := none
  error : Option String := none
  result : Option ResultRecord := none

/-- `job.update(updates)`: merge the present fields into the record. -/
def applyUpdate (j : Job) (u : JobUpdate) : Job :=
  { j with
    status := u.status.getD j.status
    error := match u.error with | some e => some e | none => j.error
    result := match u.result with | some r => some r | none => j.result }

/-- `update_job(job_id, **updates)`: no-op returning `None` when the id
is not in the in-memory index; otherwise merge, bump `updated_at`,
persist, and return the record. -/
def update_job (jid : String) (u : JobUpdate) (st : StoreState) :
    Option Job × StoreState :=
  match st.mem jid with
  | none => (none, st)
  | some j =>
    let j' := { applyUpdate j u with updated_at := st.clock }
    let st' := { st with mem := st.mem.set jid j', clock := st.clock + 1 }
    (some j', persist j' st')

/-- `set_status(job_id, status)`. -/
def set_status (jid s : String) (st : StoreState) : StoreState :=
  (update_job jid { status := some s } st).2

/-- `set_error(job_id, error)`: sets status `"failed"` and the error. -/
def set_error (jid e : String) (st : StoreState) : StoreState :=
  (update_job jid { status := some "failed", error := some e } st).2

/-- `set_result(job_id, result)`: sets status `"completed"` and the
result, unconditionally. -/
def set_result (jid : String) (r : ResultRecord) (st : StoreState) : StoreState :=
  (update_job jid { status := some "completed", result := some r } st).2

/-- `add_event(job_id, message, stage, data)`: no-op when the id is
unknown to the index; otherwise append the event and persist. -/
def add_event (jid msg : String) (stage : Option String)
    (data : Option (List (String × String))) (st : StoreState) : StoreState :=
  match st.mem jid with
  | none => st
  | some j =>
    let ev : JobEvent := { time := st.clock, message := msg, stage := stage, data := data }
    let j' := { j with events := j.events ++ [ev] }
    let st' := { st with mem := st.mem.set jid j', clock := st.clock + 1 }
    persist j' st'

/-- `get_job(job_id)`: serve from the index; on a miss fall back to the
durable file and repopulate the index. -/
def get_job (jid : String) (st : StoreState) : Option Job × StoreState :=
  match st.mem jid with
  | some j => (some j, st)
  | none =>
    match st.disk jid with
    | some j => (some j, { st with mem := st.mem.set jid j })
    | none => (none, st)

/-- A freshly started process: the in-memory index is empty, the durable
files survive. -/
def restart (st : StoreState) : StoreState :=
  { st with mem := StrMap.empty }

/-- Status of a job as seen through the in-memory index. -/
def jobStatus (st : StoreState) (jid : String) : Option String :=
  (st.mem jid).map Job.status

/-- Error field of a job as seen through the in-memory index. -/
def jobError (st : StoreState) (jid : String) : Option String :=
  (st.mem jid).bind Job.error

/-- The store mutations / reads exercised by this codebase, used to
quantify over arbitrary operation sequences. -/
inductive StoreOp where
  | create (jid : String) (p : Payload)
  | update (jid : String) (u : JobUpdate)
  | setStatus (jid s : String)
  | setError (jid e : String)
  | setResult (jid : String) (r : ResultRecord)
  | addEvent (jid msg : String) (stage : Option String)
      (data : Option (List (String × String)))
  | read (jid : String)

def applyOp (st : StoreState) : StoreOp → StoreState
  | .create jid p => (create_job jid p st).2
  | .update jid u => (update_job jid u st).2
  | .setStatus jid s => set_status jid s st
  | .setError jid e => set_error jid e st
  | .setResult jid r => set_result jid r st
  | .addEvent jid msg stage data => add_event jid msg stage data st
  | .read jid => (get_job jid st).2

def applyOps (ops : List StoreOp) (st : StoreState) : StoreState :=
  ops.foldl applyOp st

/-! ### Quality control tool (`tools/quality_control_tool.py`) -/

/-- Python's `round(x, ndigits)` on exact rationals: round half to even
at `ndigits` decimal places. -/
def pyRoundTo (ndigits : Nat) (x : Rat) : Rat :=
  let m : Rat := ((10 : Nat) ^ ndigits : Nat)
  let y := x * m
  let fl : Int := ⌊y⌋
  let frac := y - fl
  let r : Int :=
    if frac < 1/2 then fl
    else if 1/2 < frac then fl + 1
    else if fl % 2 = 0 then fl else fl + 1
  (r : Rat) / m

/-- Python `str.lower()` (the texts involved are ASCII). -/
def pyLower (s : String) : String :=
  String.mk (s.data.map Char.toLower)

/-- Drop leading and trailing whitespace from a character list. -/
def trimChars (l : List Char) : List Char :=
  ((l.dropWhile Char.isWhitespace).reverse.dropWhile Char.isWhitespace).reverse

/-- Python `str.strip()`. -/
def pyStrip (s : String) : String :=
  String.mk (trimChars s.data)

/-- Split a character list on whitespace runs (accumulator holds the
current word reversed). -/
def splitWsAux : List Char → List Char → List (List Char)
  | [], acc => [acc.reverse]
  | c :: cs, acc =>
    if c.isWhitespace then acc.reverse :: splitWsAux cs []
    else splitWsAux cs (c :: acc)

/-- Python `str.split()` with no separator: split on whitespace runs and
drop empty words. -/
def pyWords (s : String) : List String :=
  ((splitWsAux s.data []).filter (fun w => w ≠ [])).map String.mk

/-- `_normalize_text`: lowercase, strip the punctuation characters
`. , ? ! - " ; :`, and split on whitespace. -/
def normalize_text (text : String) : List String :=
  let lowered := pyLower text
  let stripped := String.mk (lowered.data.filter
    (fun c => c ∉ ['.', ',', '?', '!', '-', '\"', ';', ':']))
  pyWords stripped

/-- Inner step of the word-level Levenshtein distance matrix of
`_calculate_wer`: given the cost `left` of `d[i][j-1]`, the diagonal
`diag = d[i-1][j-1]`, the rest `d[i-1][j..]` of the previous row and the
remaining hypothesis words, produce `d[i][j..]`. -/
def levRowGo (a : String) : Nat → Nat → List Nat → List String → List Nat
  | left, diag, prevj :: prevRest, b :: hRest =>
    let cost := if a = b then 0 else 1
    let cur := min (left + 1) (min (prevj + 1) (diag + cost))
    cur :: levRowGo a cur prevj prevRest hRest
  | _, _, _, _ => []

/-- Row `i` of the distance matrix from row `i-1` (`d[i][0] = i` is
`prev[0] + 1`). -/
def levRow (a : String) (prev : List Nat) (h : List String) : List Nat :=
  let first := prev.headD 0 + 1
  first :: levRowGo a first (prev.headD 0) (prev.tailD []) h

/-- Word-level Levenshtein distance `d[len(ref)][len(hyp)]`, computed
row by row exactly as the matrix loop of `_calculate_wer` fills `d`
(row 0 is `d[0][j] = j`). -/
def levenshteinWords (r h : List String) : Nat :=
  let row0 := List.range (h.length + 1)
  (r.foldl (fun prev a => levRow a prev h) row0).getLastD 0

/-- `_calculate_wer(ref_text, hyp_path)`.  The transcription call
(whisper model load and transcribe) is the oracle `asr`: `some raw`
is the `result["text"]` of a successful transcription, `none` is any
exception in the `try` block — including the `NameError` that the real
method hits because `whisper`/`np` are imported locally inside `_run`
only — in which case the method returns the reference text itself with
`wer = 0.0`. -/
def calculate_wer (ref_text : String) (asr : Option String) : String × Rat :=
  match asr with
  | none => (ref_text, 0)
  | some raw =>
    let hyp_text := pyStrip raw
    let norm_ref := normalize_text ref_text
    let norm_hyp := normalize_text hyp_text
    let d := levenshteinWords norm_ref norm_hyp
    let wer : Rat := if norm_ref.length > 0 then (d : Rat) / (norm_ref.length : Rat) else 0
    (hyp_text, wer)

/-- `_calculate_similarity(ref_path, gen_path)`.  The oracle is the
cosine of the two MFCC embeddings when both exist; `none` covers a
missing embedding or any exception, which the method turns into `0.0`. -/
def calculate_similarity (cosEmb : Option Rat) : Rat :=
  cosEmb.getD 0

/-- `qc_gates` sub-dict of `current_settings`. -/
structure QcGates where
  max_wer : Option Rat := none
  min_cosine : Option Rat := none
deriving DecidableEq

/-- `retry_params` sub-dict of `current_settings`. -/
structure RetryParams where
  cosine_bump_similarity : Option Rat := none
  similarity_cap : Option Rat := none
deriving DecidableEq

/-- The `current_settings` dict given to `QualityControlTool._run`
(the keys the method reads or copies). -/
structure QcSettings where
  similarity_boost : Option Rat := none
  qc_gates : Option QcGates := none
  retry_params : Option RetryParams := none
deriving DecidableEq

/-- The JSON object returned by `QualityControlTool._run` (the method
returns it serialized with `json.dumps`). -/
structure QcOutput where
  decision : String
  metrics : Metrics
  final_wav_path : Option String := none
  retries_used : Option Nat := none
  notes : String
  recommended_settings : Option QcSettings := none
deriving DecidableEq

/-- `max_wer` gate: `current_settings["qc_gates"].get("max_wer", 0.15)`. -/
def qcMaxWer (current_settings : QcSettings) : Rat :=
  (current_settings.qc_gates.getD {}).max_wer.getD (15/100)

/-- `min_cosine` gate: `current_settings["qc_gates"].get("min_cosine", 0.80)`. -/
def qcMinCosine (current_settings : QcSettings) : Rat :=
  (current_settings.qc_gates.getD {}).min_cosine.getD (80/100)

/-- `cosine_bump_similarity` retry parameter (default `0.05`). -/
def qcBump (current_settings : QcSettings) : Rat :=
  (current_settings.retry_params.getD {}).cosine_bump_similarity.getD (5/100)

/-- `similarity_cap` retry parameter (default `0.95`). -/
def qcCap (current_settings : QcSettings) : Rat :=
  (current_settings.retry_params.getD {}).similarity_cap.getD (95/100)

/-- `QualityControlTool._run(text, gen_wav_path, ref_voice_wav,
current_settings, is_retry)` after the lazy imports succeeded (an
`ImportError` short-circuits into an error object with no decision and
is outside every claim).  `asr` and `cosEmb` are the collaborator
oracles of `_calculate_wer` / `_calculate_similarity`. -/
def qc_tool_run (text : String) (gen_wav_path : String)
    (current_settings : QcSettings) (is_retry : Bool)
    (asr : Option String) (cosEmb : Option Rat) : QcOutput :=
  let max_wer := qcMaxWer current_settings
  let min_cosine := qcMinCosine current_settings
  let cosine_bump_similarity := qcBump current_settings
  let similarity_cap := qcCap current_settings
  let tw := calculate_wer text asr
  let transcript := tw.1
  let wer := tw.2
  let cosine_sim := calculate_similarity cosEmb
  let metrics : Metrics := { wer := pyRoundTo 4 wer,
                             speaker_cosine := pyRoundTo 4 cosine_sim,
                             transcript := transcript }
  let passed_wer := wer ≤ max_wer
  let passed_cosine := cosine_sim ≥ min_cosine
  if passed_wer ∧ passed_cosine then
    { decision := "pass", metrics := metrics, final_wav_path := some gen_wav_path,
      retries_used := some (if is_retry then 1 else 0),
      notes := "All quality checks passed." }
  else if ¬ is_retry then
    let notes₁ : List String :=
      (if ¬ passed_wer then
        ["WER " ++ toString metrics.wer ++ " exceeds max " ++ toString max_wer ++ "."]
       else []) ++
      (if ¬ passed_cosine then
        ["Cosine similarity " ++ toString metrics.speaker_cosine ++
         " is below min " ++ toString min_cosine ++ "."]
       else [])
    let new_sim_boost :=
      pyRoundTo 3 (min (current_settings.similarity_boost.getD (7/10) + cosine_bump_similarity)
                       similarity_cap)
    let recommended :=
      if ¬ passed_cosine then
        { current_settings with similarity_boost := some new_sim_boost }
      else current_settings
    let notes₂ :=
      if ¬ passed_cosine then
        notes₁ ++ ["Recommending similarity_boost increase to " ++ toString new_sim_boost ++ "."]
      else notes₁
    { decision := "retry", metrics := metrics,
      notes := String.intercalate " " notes₂,
      recommended_settings := some recommended }
  else
    { decision := "fail", metrics := metrics, final_wav_path := some gen_wav_path,
      retries_used := some 1,
      notes := "Failed quality checks after one retry." }

/-! ### Policy guard and orchestrator (`api/orchestrator.py`) -/

/-- `_policy_guard(payload)`: admission check, returning a rejection
reason or nothing.  Checks run in source order, each `return`
short-circuiting: consent, then provider, then text length against
`limits.max_text_length` (default 800) taken from the payload itself. -/
def policy_guard (p : Payload) : Option String :=
  let provider := pyStrip (pyLower (p.provider.getD ""))
  let consent := p.consent_flag.getD false
  let text := p.text.getD ""
  let limits := p.limits.getD {}
  let max_text_length : Int := limits.max_text_length.getD 800
  if consent = false then some "missing consent"
  else if provider ≠ "elevenlabs" then some "provider not ElevenLabs"
  else if (text.length : Int) > max_text_length then some "text too long"
  else none

/-- Outcome of the optional CrewAI block (lines 50-79): the block only
appends events and swallows every exception internally. -/
inductive CrewOutcome where
  | noCrew
  | kickoffOk
  | kickoffError (e : String)
  | initError (e : String)

/-- Parsed JSON result of `AudioProcessingTool._run` (the orchestrator
parses the returned string; a parse failure is folded into the `error`
field, mirroring `parsed = {"error": str(ap_result)}`). -/
structure ApParsed where
  error : Option String := none
  clean_wav_path : Option String := none

/-- External behaviour visible to one `run_clone_job` execution. -/
structure OrchEnv where
  /-- `os.path.exists`. -/
  pathExists : String → Bool
  /-- `os.getenv("CREWAI_RUN", "false").lower() == "true"`. -/
  crewaiRun : Bool
  crew : CrewOutcome
  /-- `AudioProcessingTool()._run(...)` plus JSON parsing: `.error e`
  is an exception caught by the surrounding handler. -/
  ap : Except String ApParsed
  /-- `synthesize_with_elevenlabs_simple(...)`: the helper catches all
  its own exceptions and returns the base64 string or `None`. -/
  tts : Option String
  /-- The base64-decode / librosa / soundfile conversion block. -/
  prep : Except String Unit
  /-- The `qc_tool._run(...)` call.  `QualityControlTool._run` does not
  accept the `gates=` / `retry=` keywords the orchestrator passes (its
  signature takes `current_settings`), so at runtime this call raises a
  `TypeError`, which is the `.error` case; `.ok s` stands for the JSON
  string the method would return if the call ever succeeded. -/
  qc : Except String String

/-- The pipeline-stage collaborator calls the orchestrator actually
performs, in order, recorded as a trace. -/
inductive StageCall where
  | preprocess
  | synthesize
  | prepare
  | qc
deriving DecidableEq

/-- Events-only CrewAI block (never touches status or raises). -/
def crew_block (jid : String) (env : OrchEnv) (st : StoreState) : StoreState :=
  if env.crewaiRun = false then st
  else
    match env.crew with
    | .noCrew => st
    | .initError e => add_event jid ("CrewAI init skipped: " ++ e) (some "crew") none st
    | .kickoffOk =>
      add_event jid "CrewAI finished" (some "crew") none
        (add_event jid "CrewAI kickoff" (some "crew") none st)
    | .kickoffError e =>
      add_event jid ("CrewAI error: " ++ e) (some "crew") none
        (add_event jid "CrewAI kickoff" (some "crew") none st)

/-- The result-assembly step of `run_clone_job` (lines 157-183) exactly
as written: it reads the decision from the QC result, sets the terminal
status accordingly, and then calls `set_result` (which itself sets
status `"completed"`).  In the running code this block is unreachable —
`qc_result` is a string, so `qc_result.get` raises before it — but it is
the code of record for final assembly.  `decision` / `notes` / `metrics`
model `qc_result.get(...)` lookups; the `os.getenv` fallbacks of
`settings_used` are their default strings `0.55 / 0.7 / 0.0 / 1.0`. -/
def result_assembly (jid : String) (p : Payload) (decision : Option String)
    (notes : Option String) (metrics : Option Metrics)
    (clean_wav_path : Option String) (gen_wav_path : String)
    (st : StoreState) : StoreState :=
  let final_decision := decision.getD "fail"
  let st1 :=
    if final_decision = "pass" then set_status jid "completed" st
    else set_status jid "failed" st
  let okFlag := final_decision = "pass"
  let reason :=
    if okFlag then "checks passed"
    else "QC failed: " ++ notes.getD "unspecified"
  let defaults := p.defaults.getD {}
  let settings_used : SettingsUsed :=
    { stability := defaults.stability.getD (55/100),
      similarity_boost := defaults.similarity_boost.getD (7/10),
      style := defaults.style.getD 0,
      speed := defaults.speed.getD 1 }
  let result : ResultRecord :=
    { ok := okFlag, reason := reason, decision := final_decision,
      metrics := metrics, clean_wav_path := clean_wav_path,
      gen_wav_path := gen_wav_path, settings_used := settings_used }
  set_result jid result st1

/-- Body of `run_clone_job` inside the outer `try`.  Returns the store,
an uncaught exception (to be handled by the outer `except`) and the
trace of stage-collaborator calls made.  The construction of the
`gates` / `retry_config` dicts (lines 132-142) is pure arithmetic on the
typed payload and feeds only the QC call, whose outcome `env.qc`
already models, so it is not replicated here. -/
def run_clone_job_body (jid : String) (p : Payload) (env : OrchEnv)
    (st0 : StoreState) : StoreState × Option String × List StageCall :=
  let st := set_status jid "validating" st0
  let st := add_event jid "Running policy and cost guard" (some "policy") none st
  match policy_guard p with
  | some err => (set_error jid ("Input unusable: " ++ err) st, none, [])
  | none =>
    let rap := p.raw_audio_path.getD ""
    if rap = "" ∨ env.pathExists rap = false then
      (set_error jid "raw_audio_path is required and must exist" st, none, [])
    else
      let st := crew_block jid env st
      let st := set_status jid "ingesting" st
      let st := add_event jid "Preprocessing audio" (some "ingestion")
        (some [("raw_audio_path", rap)]) st
      match env.ap with
      | .error e =>
        (set_error jid ("Audio preprocessing failed: " ++ e) st, none, [.preprocess])
      | .ok parsed =>
        if parsed.error.getD "" ≠ "" then
          (set_error jid ("Audio preprocessing error: " ++ parsed.error.getD "") st,
           none, [.preprocess])
        else
          let clean := parsed.clean_wav_path.getD ""
          if clean = "" ∨ env.pathExists clean = false then
            (set_error jid "Audio processing failed to produce an output file" st,
             none, [.preprocess])
          else
            let st := add_event jid "Audio preprocessed" (some "ingestion")
              (some [("clean_wav_path", clean)]) st
            let st := set_status jid "synthesizing" st
            let audio_b64 := env.tts.getD ""
            if audio_b64 = "" then
              (set_error jid "TTS generation failed" st, none, [.preprocess, .synthesize])
            else
              match env.prep with
              | .error e =>
                (set_error jid ("Failed to prepare generated audio for QC: " ++ e) st,
                 none, [.preprocess, .synthesize, .prepare])
              | .ok _ =>
                let st := set_status jid "verifying" st
                match env.qc with
                | .error e =>
                  (set_error jid ("QC check failed: " ++ e) st, none,
                   [.preprocess, .synthesize, .prepare, .qc])
                | .ok _jsonStr =>
                  -- Line 158: `qc_result.get("decision", "fail")` — the value
                  -- is the string `_run` returned, and `str` has no `.get`,
                  -- so an AttributeError escapes to the outer handler.
                  (st, some "'str' object has no attribute 'get'",
                   [.preprocess, .synthesize, .prepare, .qc])

/-- `run_clone_job(job_id, payload)`: the body wrapped in the outer
fault barrier that converts any uncaught exception into a failed job. -/
def run_clone_job (jid : String) (p : Payload) (env : OrchEnv)
    (st : StoreState) : StoreState × List StageCall :=
  match run_clone_job_body jid p env st with
  | (st', none, tr) => (st', tr)
  | (st', some e, tr) => (set_error jid ("Orchestration error: " ++ e) st', tr)

/-! ### Simple TTS helper (`api/tts_utils.py`)

`synthesize_with_elevenlabs_simple` has no cache: whenever a client is
available it calls `client.text_to_speech.convert` (one billed provider
call), joins the chunks, and base64-encodes them; every exception is
caught and turned into `None`.  The second component of the result
counts the provider invocations the call performed. -/

structure SimpleTtsEnv where
  /-- `_load_elevenlabs_client()` result: `false` models a missing SDK
  or API key or a constructor failure (the helper then returns `None`
  without calling the provider). -/
  clientAvailable : Bool
  /-- The provider call: `.ok b64` is the base64 of the joined chunks
  (possibly empty when the chunks were), `.error e` any exception. -/
  convert : Except String String

def synthesize_with_elevenlabs_simple (voice_id text mode : String)
    (env : SimpleTtsEnv) : Option String × Nat :=
  if env.clientAvailable = false then (none, 0)
  else
    match env.convert with
    | .error _ => (none, 1)
    | .ok b64 => (if b64 = "" then none else some b64, 1)

/-! ### Cached TTS tool (`tools/elevenlabs_tool.py`) -/

/-- The full parameter tuple `ElevenLabsTool._run` folds into its cache
key (after the mode-dependent stability selection). -/
structure TtsParams where
  voice_id : String
  text : String
  stability : Rat
  similarity_boost : Rat
  style : Rat
  speed : Rat
  model_id : String
  format : String
deriving DecidableEq

/-- A field value of the canonicalized cache-key object. -/
inductive CacheField where
  | s (v : String)
  | n (v : Rat)
deriving DecidableEq

/-- The canonicalized (sorted-field) key object.  The source serializes
exactly this mapping with `json.dumps(..., sort_keys=True)` and hashes
the serialization with SHA-256 to name the cache file; both
serialization and digest are injective on it (the digest up to hash
collisions), so the key is modelled by its canonical content. -/
def cacheKey (p : TtsParams) : List (String × CacheField) :=
  [("format", .s p.format),
   ("model_id", .s p.model_id),
   ("similarity_boost", .n p.similarity_boost),
   ("speed", .n p.speed),
   ("stability", .n p.stability),
   ("style", .n p.style),
   ("text", .s p.text),
   ("voice_id", .s p.voice_id)]

/-- The cache directory: which content-addressed files exist with
nonzero size (`os.path.exists(output_path) and os.path.getsize > 0`). -/
def TtsCache : Type := List (String × CacheField) → Bool

/-- Result of one `ElevenLabsTool._run` call: the returned handle (the
content-addressed output path, identified by its key), the number of
provider invocations performed, and the cache directory afterwards. -/
structure ToolRunResult where
  handle : List (String × CacheField)
  providerCalls : Nat
  cache : TtsCache

/-- `ElevenLabsTool._run` at the caching boundary: on a hit the cached
path is returned with no provider call; on a miss the provider pipeline
(chunked convert, with the legacy-generate fallback) runs once, and a
nonempty result is persisted at the content address before the path is
returned.  `providerBytes = none` models a failed or unavailable
provider, in which case the source returns the would-be path as a stub
without writing it. -/
def elevenlabs_tool_run (p : TtsParams) (cache : TtsCache)
    (providerBytes : Option String) : ToolRunResult :=
  let k := cacheKey p
  if cache k then { handle := k, providerCalls := 0, cache := cache }
  else
    match providerBytes with
    | some b =>
      if b = "" then { handle := k, providerCalls := 1, cache := cache }
      else
        { handle := k, providerCalls := 1,
          cache := fun k' => if k' = k then true else cache k' }
    | none => { handle := k, providerCalls := 1, cache := cache }


/-- A sample result record, as assembled by the orchestrator for a
QC-failed job. -/
def sampleResult : ResultRecord :=
  { ok := false, reason := "QC failed: unspecified", decision := "fail",
    gen_wav_path := "/tmp/job_job1_preview.wav",
    settings_used := { stability := 55/100, similarity_boost := 7/10,
                       style := 0, speed := 1 } }

/-- A sample admissible payload (consented, ElevenLabs, short text). -/
def samplePayload : Payload :=
  { provider := some "elevenlabs", consent_flag := some true,
    text := some "Hello world", raw_audio_path := some "/tmp/raw.wav",
    voice_id := some "V1", mode := some "narration" }

/-- A sample environment in which every collaborator behaves and the QC
tool invocation raises the keyword-mismatch `TypeError` of the source. -/
def sampleEnv : OrchEnv :=
  { pathExists := fun _ => true, crewaiRun := false, crew := .noCrew,
    ap := .ok { clean_wav_path := some "/tmp/clean.wav" },
    tts := some "QUJD", prep := .ok (),
    qc := .error "_run() got an unexpected keyword argument 'gates'" }

/-- A 900-character text, above the default 800-character cap. -/
def longText : String := String.mk (List.replicate 900 'a')

/-- Concrete QC settings used in refutations: a similarity boost whose
bumped value is not 3-decimal-round-stable. -/
def cexSettings : QcSettings :=
  { similarity_boost := some (72815/100000),
    retry_params := some { cosine_bump_similarity := some (5/100),
                           similarity_cap := some (95/100) } }

/-- An environment identical to `sampleEnv` except that the QC tool
invocation is assumed to return its JSON string (the hypothetical
success case of the call). -/
def sampleEnvOkQc : OrchEnv :=
  { sampleEnv with qc := .ok "qc json string" }

/-- Concrete TTS parameter tuple. -/
def ttsParamsA : TtsParams :=
  { voice_id := "V1", text := "Hello world", stability := 55/100,
    similarity_boost := 7/10, style := 0, speed := 1,
    model_id := "eleven_multilingual_v2", format := "mp3_44100_128" }

/-- The same tuple with only `speed` changed. -/
def ttsParamsFaster : TtsParams :=
  { ttsParamsA with speed := 12/10 }

/-- A consented ElevenLabs payload carrying a caller-supplied
`limits.max_text_length` of 100000 and a 900-character text. -/
def bigLimitPayload : Payload :=
  { provider := some "elevenlabs", consent_flag := some true,
    text := some longText,
    limits := some { max_text_length := some 100000 } }

/-- The same payload without a `limits` object (default cap 800). -/
def noLimitPayload : Payload :=
  { provider := some "elevenlabs", consent_flag := some true,
    text := some longText }

/-- The sample payload with consent withheld. -/
def noConsentPayload : Payload :=
  { samplePayload with consent_flag := some false }

/-- A store holding the freshly created sample job. -/
def stWithJob : StoreState :=
  (create_job "job1" samplePayload emptyStore).2
/-- The persistence invariant of the job store: records (in memory and
on disk) are filed under their own id, every job in the in-memory index
is present unchanged in its durable file, and no temporary file lingers
(each `_persist` renames its temporary away). -/
def storeInv (st : StoreState) : Prop :=
  (∀ k j, st.mem k = some j → j.id = k) ∧
  (∀ k j, st.disk k = some j → j.id = k) ∧
  (∀ k j, st.mem k = some j → st.disk k = some j) ∧
  (∀ k, st.tmpFiles k = none)

/-! ### Store lemmas -/

@[simp]
theorem StrMap.get_set_same {α : Type} (m : StrMap α) (k : String) (v : α) :
    m.set k v k = some v := by
  simp [StrMap.set]

theorem StrMap.get_set_ne {α : Type} (m : StrMap α) (k k' : String) (v : α)
    (h : k' ≠ k) : m.set k v k' = m k' := by
  simp [StrMap.set, h]

@[simp]
theorem jobStatus_set_status (jid s : String) (st : StoreState) :
    jobStatus (set_status jid s st) jid =
      if (st.mem jid).isSome then some s else none := by
  unfold jobStatus set_status update_job
  cases h : st.mem jid <;> simp [h, persist, StrMap.set, applyUpdate]

@[simp]
theorem jobStatus_set_error (jid e : String) (st : StoreState) :
    jobStatus (set_error jid e st) jid =
      if (st.mem jid).isSome then some "failed" else none := by
  unfold jobStatus set_error update_job
  cases h : st.mem jid <;> simp [h, persist, StrMap.set, applyUpdate]

@[simp]
theorem jobStatus_set_result (jid : String) (r : ResultRecord) (st : StoreState) :
    jobStatus (set_result jid r st) jid =
      if (st.mem jid).isSome then some "completed" else none := by
  unfold jobStatus set_result update_job
  cases h : st.mem jid <;> simp [h, persist, StrMap.set, applyUpdate]

@[simp]
theorem jobError_set_error (jid e : String) (st : StoreState) :
    jobError (set_error jid e st) jid =
      if (st.mem jid).isSome then some e else none := by
  unfold jobError set_error update_job
  cases h : st.mem jid <;> simp [h, persist, StrMap.set, applyUpdate]

@[simp]
theorem mem_isSome_set_status (jid s : String) (st : StoreState) :
    ((set_status jid s st).mem jid).isSome = (st.mem jid).isSome := by
  unfold set_status update_job
  cases h : st.mem jid <;> simp [h, persist, StrMap.set]

@[simp]
theorem mem_isSome_set_error (jid e : String) (st : StoreState) :
    ((set_error jid e st).mem jid).isSome = (st.mem jid).isSome := by
  unfold set_error update_job
  cases h : st.mem jid <;> simp [h, persist, StrMap.set]

@[simp]
theorem mem_isSome_add_event (jid msg : String) (stage : Option String)
    (data : Option (List (String × String))) (st : StoreState) :
    ((add_event jid msg stage data st).mem jid).isSome = (st.mem jid).isSome := by
  unfold add_event
  cases h : st.mem jid <;> simp [h, persist, StrMap.set]

@[simp]
theorem jobStatus_add_event (jid msg : String) (stage : Option String)
    (data : Option (List (String × String))) (st : StoreState) :
    jobStatus (add_event jid msg stage data st) jid = jobStatus st jid := by
  unfold jobStatus add_event
  cases h : st.mem jid <;> simp [h, persist, StrMap.set]

@[simp]
theorem jobError_add_event (jid msg : String) (stage : Option String)
    (data : Option (List (String × String))) (st : StoreState) :
    jobError (add_event jid msg stage data st) jid = jobError st jid := by
  unfold jobError add_event
  cases h : st.mem jid <;> simp [h, persist, StrMap.set]

@[simp]
theorem jobStatus_crew_block (jid : String) (env : OrchEnv) (st : StoreState) :
    jobStatus (crew_block jid env st) jid = jobStatus st jid := by
  unfold crew_block
  cases env.crewaiRun <;> cases env.crew <;> simp

@[simp]
theorem mem_isSome_crew_block (jid : String) (env : OrchEnv) (st : StoreState) :
    ((crew_block jid env st).mem jid).isSome = (st.mem jid).isSome := by
  unfold crew_block
  cases env.crewaiRun <;> cases env.crew <;> simp

@[simp]
theorem persist_mem (j : Job) (st : StoreState) : (persist j st).mem = st.mem := rfl

@[simp]
theorem persist_disk (j : Job) (st : StoreState) (k : String) :
    (persist j st).disk k = if k = j.id then some j else st.disk k := by
  simp [persist, StrMap.set]

@[simp]
theorem persist_tmp (j : Job) (st : StoreState) (k : String) :
    (persist j st).tmpFiles k = if k = j.id then none else st.tmpFiles k := by
  simp only [persist, StrMap.set, StrMap.del]
  by_cases hkj : k = j.id <;> simp [hkj]

theorem storeInv_empty : storeInv emptyStore := by
  refine ⟨?_, ?_, ?_, ?_⟩ <;> intro k <;> simp [emptyStore, StrMap.empty]

theorem storeInv_create (jid : String) (p : Payload) {st : StoreState}
    (h : storeInv st) : storeInv (create_job jid p st).2 := by
  obtain ⟨hidm, hidd, hmd, ht⟩ := h
  refine ⟨?_, ?_, ?_, ?_⟩
  · intro k j hk
    simp only [create_job, persist_mem] at hk
    by_cases hkj : k = jid
    · subst hkj
      simp [StrMap.set] at hk
      simp [← hk]
    · rw [StrMap.get_set_ne _ _ _ _ hkj] at hk
      exact hidm k j hk
  · intro k j hk
    simp only [create_job, persist_disk] at hk
    by_cases hkj : k = jid
    · subst hkj
      simp at hk
      simp [← hk]
    · simp only [if_neg hkj] at hk
      exact hidd k j hk
  · intro k j hk
    simp only [create_job, persist_mem, persist_disk] at hk ⊢
    by_cases hkj : k = jid
    · subst hkj
      simp [StrMap.set] at hk
      simp [← hk]
    · rw [StrMap.get_set_ne _ _ _ _ hkj] at hk
      simp only [if_neg hkj]
      exact hmd k j hk
  · intro k
    simp only [create_job, persist_tmp]
    by_cases hkj : k = jid
    · simp [hkj]
    · simp [hkj, ht k]

theorem storeInv_update (jid : String) (u : JobUpdate) {st : StoreState}
    (h : storeInv st) : storeInv (update_job jid u st).2 := by
  obtain ⟨hidm, hidd, hmd, ht⟩ := h
  cases hm : st.mem jid with
  | none => simpa [update_job, hm] using ⟨hidm, hidd, hmd, ht⟩
  | some j0 =>
    have hjid : j0.id = jid := hidm jid j0 hm
    have hjid' : (applyUpdate j0 u).id = jid := by simp [applyUpdate, hjid]
    refine ⟨?_, ?_, ?_, ?_⟩
    · intro k j hk
      simp only [update_job, hm, persist_mem] at hk
      by_cases hkj : k = jid
      · subst hkj
        simp [StrMap.set] at hk
        simp [← hk, hjid']
      · rw [StrMap.get_set_ne _ _ _ _ hkj] at hk
        exact hidm k j hk
    · intro k j hk
      simp only [update_job, hm, persist_disk] at hk
      by_cases hkj : k = jid
      · subst hkj
        rw [if_pos (by rw [hjid'])] at hk
        simp at hk
        simp [← hk, hjid']
      · rw [if_neg (by rw [hjid']; exact hkj)] at hk
        exact hidd k j hk
    · intro k j hk
      simp only [update_job, hm, persist_mem, persist_disk] at hk ⊢
      by_cases hkj : k = jid
      · subst hkj
        simp [StrMap.set] at hk
        rw [if_pos (by rw [hjid'])]
        simp [← hk]
      · rw [StrMap.get_set_ne _ _ _ _ hkj] at hk
        rw [if_neg (by rw [hjid']; exact hkj)]
        exact hmd k j hk
    · intro k
      simp only [update_job, hm, persist_tmp]
      by_cases hkj : k = jid
      · rw [if_pos (by rw [hjid']; exact hkj)]
      · rw [if_neg (by rw [hjid']; exact hkj)]
        exact ht k

theorem storeInv_add_event (jid msg : String) (stage : Option String)
    (data : Option (List (String × String))) {st : StoreState}
    (h : storeInv st) : storeInv (add_event jid msg stage data st) := by
  obtain ⟨hidm, hidd, hmd, ht⟩ := h
  cases hm : st.mem jid with
  | none => simpa [add_event, hm] using ⟨hidm, hidd, hmd, ht⟩
  | some j0 =>
    have hjid : j0.id = jid := hidm jid j0 hm
    refine ⟨?_, ?_, ?_, ?_⟩
    · intro k j hk
      simp only [add_event, hm, persist_mem] at hk
      by_cases hkj : k = jid
      · subst hkj
        simp [StrMap.set] at hk
        simp [← hk, hjid]
      · rw [StrMap.get_set_ne _ _ _ _ hkj] at hk
        exact hidm k j hk
    · intro k j hk
      simp only [add_event, hm, persist_disk] at hk
      by_cases hkj : k = jid
      · subst hkj
        rw [if_pos (by simp [hjid])] at hk
        simp at hk
        simp [← hk, hjid]
      · rw [if_neg (by simp [hjid]; exact hkj)] at hk
        exact hidd k j hk
    · intro k j hk
      simp only [add_event, hm, persist_mem, persist_disk] at hk ⊢
      by_cases hkj : k = jid
      · subst hkj
        simp [StrMap.set] at hk
        rw [if_pos (by simp [hjid])]
        simp [← hk]
      · rw [StrMap.get_set_ne _ _ _ _ hkj] at hk
        rw [if_neg (by simp [hjid]; exact hkj)]
        exact hmd k j hk
    · intro k
      simp only [add_event, hm, persist_tmp]
      by_cases hkj : k = jid
      · rw [if_pos (by simp [hjid]; exact hkj)]
      · rw [if_neg (by simp [hjid]; exact hkj)]
        exact ht k

theorem storeInv_get (jid : String) {st : StoreState}
    (h : storeInv st) : storeInv (get_job jid st).2 := by
  obtain ⟨hidm, hidd, hmd, ht⟩ := h
  cases hm : st.mem jid with
  | some j0 => simpa [get_job, hm] using ⟨hidm, hidd, hmd, ht⟩
  | none =>
    cases hdk : st.disk jid with
    | none => simpa [get_job, hm, hdk] using ⟨hidm, hidd, hmd, ht⟩
    | some j0 =>
      have hjid : j0.id = jid := hidd jid j0 hdk
      refine ⟨?_, ?_, ?_, ?_⟩
      · intro k j hk
        simp only [get_job, hm, hdk] at hk
        by_cases hkj : k = jid
        · subst hkj
          simp [StrMap.set] at hk
          simp [← hk, hjid]
        · rw [StrMap.get_set_ne _ _ _ _ hkj] at hk
          exact hidm k j hk
      · intro k j hk
        simp only [get_job, hm, hdk] at hk
        exact hidd k j hk
      · intro k j hk
        simp only [get_job, hm, hdk] at hk ⊢
        by_cases hkj : k = jid
        · subst hkj
          simp [StrMap.set] at hk
          rw [← hk]
          exact hdk
        · rw [StrMap.get_set_ne _ _ _ _ hkj] at hk
          exact hmd k j hk
      · intro k
        simp only [get_job, hm, hdk]
        exact ht k

theorem storeInv_applyOp {st : StoreState} (h : storeInv st) (op : StoreOp) :
    storeInv (applyOp st op) := by
  cases op with
  | create jid p => exact storeInv_create jid p h
  | update jid u => exact storeInv_update jid u h
  | setStatus jid s => exact storeInv_update jid _ h
  | setError jid e => exact storeInv_update jid _ h
  | setResult jid r => exact storeInv_update jid _ h
  | addEvent jid msg stage data => exact storeInv_add_event jid msg stage data h
  | read jid => exact storeInv_get jid h

theorem storeInv_applyOps (ops : List StoreOp) {st : StoreState} (h : storeInv st) :
    storeInv (applyOps ops st) := by
  induction ops generalizing st with
  | nil => exact h
  | cons op rest ih => exact ih (storeInv_applyOp h op)

/-! ### Claims about the job store -/

/-- Claim C5: every job-store mutation writes the full record to stable
storage before returning, through a write-to-temporary then
atomic-rename (`os.replace`) pattern that leaves no temporary file
behind; consequently, after any sequence of store operations starting
from an empty store, a freshly restarted process (empty in-memory
index, same durable files) still serves `get(id)` with payload and
status identical to the last persisted record. -/
theorem store_mutations_durable (ops : List StoreOp) (jid : String) (j : Job)
    (h : (applyOps ops emptyStore).mem jid = some j) :
    (applyOps ops emptyStore).disk jid = some j ∧
    (applyOps ops emptyStore).tmpFiles jid = none ∧
    (get_job jid (restart (applyOps ops emptyStore))).1 = some j := by
  obtain ⟨_, _, hmd, ht⟩ := storeInv_applyOps ops storeInv_empty
  have hdisk := hmd jid j h
  refine ⟨hdisk, ht jid, ?_⟩
  simp [get_job, restart, StrMap.empty, hdisk]

/-- Witness for C5: a concrete `create` followed by a status update
survives a restart with the same payload and status. -/
theorem store_mutations_durable_witness :
    (applyOps [StoreOp.create "job1" {}, StoreOp.setStatus "job1" "validating"]
        emptyStore).mem "job1" =
      some { id := "job1", status := "validating", created_at := 0,
             updated_at := 1, payload := {} } ∧
    (get_job "job1"
        (restart (applyOps [StoreOp.create "job1" {}, StoreOp.setStatus "job1" "validating"]
          emptyStore))).1 =
      some { id := "job1", status := "validating", created_at := 0,
             updated_at := 1, payload := {} } := by
  have h : (applyOps [StoreOp.create "job1" {}, StoreOp.setStatus "job1" "validating"]
      emptyStore).mem "job1" =
      some { id := "job1", status := "validating", created_at := 0,
             updated_at := 1, payload := {} } := by decide
  exact ⟨h, (store_mutations_durable _ _ _ h).2.2⟩

/-- Claim C1 (refuting evaluation): terminal status is not immutable in
the store.  Concretely, after a job has been set to `failed`, the
`set_result` convenience wrapper — which unconditionally updates status
to `"completed"` — flips it back, and the orchestrator's result-assembly
code does exactly that to a QC-failed job: it first sets status
`"failed"` and then calls `set_result`, so the job record ends
`"completed"`. -/
theorem failed_job_flipped_to_completed :
    (jobStatus (set_error "job1" "boom"
        (create_job "job1" {} emptyStore).2) "job1" = some "failed") ∧
    (jobStatus (set_result "job1" sampleResult
        (set_error "job1" "boom" (create_job "job1" {} emptyStore).2)) "job1" =
      some "completed") ∧
    (jobStatus (result_assembly "job1" {} (some "fail") none none none
        "/tmp/job_job1_preview.wav"
        (set_error "job1" "boom" (create_job "job1" {} emptyStore).2)) "job1" =
      some "completed") := by
  refine ⟨?_, ?_, ?_⟩ <;> decide

/-! ### Claims about the QC decision engine -/

/-- Claim C7: for every QC evaluation, the decision is `"pass"` exactly
when the computed word-error-rate is at most the configured `max_wer`
gate and the computed cosine similarity is at least the configured
`min_cosine` gate. -/
theorem qc_pass_iff_gates (text gen_wav_path : String) (cs : QcSettings)
    (is_retry : Bool) (asr : Option String) (cosEmb : Option Rat) :
    (qc_tool_run text gen_wav_path cs is_retry asr cosEmb).decision = "pass" ↔
      ((calculate_wer text asr).2 ≤ qcMaxWer cs ∧
       calculate_similarity cosEmb ≥ qcMinCosine cs) := by
  unfold qc_tool_run
  by_cases h : (calculate_wer text asr).2 ≤ qcMaxWer cs ∧
      calculate_similarity cosEmb ≥ qcMinCosine cs
  · simp [h]
  · by_cases hr : is_retry <;> simp [h, hr]

/-- Claim C4 (refuting evaluation): a failed or absent speech
recognition collaborator is a silent pass of the WER gate.
`_calculate_wer` catches the failure and returns the reference text as
the transcript with `wer = 0.0`, so the WER gate always passes and the
QC decision is `"pass"` whenever the cosine gate passes — the condition
is never surfaced as a fatal-to-stage outcome. -/
theorem asr_failure_silently_passes_wer :
    calculate_wer "hello world" none = ("hello world", 0) ∧
    (qc_tool_run "hello world" "/tmp/gen.wav" {} false none (some (9/10))).decision
      = "pass" ∧
    (qc_tool_run "hello world" "/tmp/gen.wav" {} false none (some (9/10))).metrics.wer
      = 0 ∧
    (qc_tool_run "hello world" "/tmp/gen.wav" {} false none (some (9/10))).metrics.transcript
      = "hello world" := by
  refine ⟨rfl, ?_, ?_, ?_⟩ <;>
    · simp only [qc_tool_run, calculate_wer, calculate_similarity,
        qcMaxWer, qcMinCosine, qcBump, qcCap, Option.getD]
      norm_num [pyRoundTo]

/-- Claim C8 (counterexample): with an empty normalized reference and a
nonempty hypothesis, `_calculate_wer` returns `wer = 0`, not `1`: the
`len(norm_ref) > 0` guard returns `0` whenever the reference is empty,
regardless of the hypothesis. -/
theorem empty_reference_wer_counterexample :
    normalize_text "" = [] ∧
    normalize_text "hello" = ["hello"] ∧
    (calculate_wer "" (some "hello")).2 = 0 ∧
    ¬ (calculate_wer "" (some "hello")).2 = 1 := by
  refine ⟨rfl, by decide, by decide, by decide⟩

/-- Claim C8 (amended): whenever the normalized reference transcript is
empty, the computed WER is `0`, regardless of the hypothesis. -/
theorem empty_reference_wer_zero (ref : String) (asr : Option String)
    (h : normalize_text ref = []) :
    (calculate_wer ref asr).2 = 0 := by
  cases asr with
  | none => rfl
  | some raw => simp [calculate_wer, h]

/-- Witness for the amended C8 at a punctuation-only reference and a
nonempty hypothesis. -/
theorem empty_reference_wer_zero_witness :
    normalize_text "?!" = [] ∧ (calculate_wer "?!" (some "abc")).2 = 0 := by
  have h : normalize_text "?!" = [] := by decide
  exact ⟨h, empty_reference_wer_zero "?!" (some "abc") h⟩

/-! ### Claims about the orchestrator -/

/-- Master case analysis of `run_clone_job`'s body: every execution
either exits normally through a `set_error` (leaving the job's index
presence untouched and one of the five possible stage traces), or hands
the AttributeError of the result-assembly line to the outer handler
after all four stage calls. -/
theorem run_body_master (jid : String) (p : Payload) (env : OrchEnv) (st : StoreState) :
    (∃ e stPre tr, run_clone_job_body jid p env st = (set_error jid e stPre, none, tr) ∧
      ((stPre.mem jid).isSome = (st.mem jid).isSome) ∧
      (tr = [] ∨ tr = [StageCall.preprocess] ∨
       tr = [StageCall.preprocess, StageCall.synthesize] ∨
       tr = [StageCall.preprocess, StageCall.synthesize, StageCall.prepare] ∨
       tr = [StageCall.preprocess, StageCall.synthesize, StageCall.prepare,
             StageCall.qc])) ∨
    (∃ stPre, run_clone_job_body jid p env st =
      (stPre, some "'str' object has no attribute 'get'",
       [StageCall.preprocess, StageCall.synthesize, StageCall.prepare, StageCall.qc]) ∧
      ((stPre.mem jid).isSome = (st.mem jid).isSome)) := by
  unfold run_clone_job_body
  rcases hpg : policy_guard p with _ | err <;> simp only [hpg]
  case some => exact Or.inl ⟨_, _, _, rfl, by simp, Or.inl rfl⟩
  by_cases h1 : p.raw_audio_path.getD "" = "" ∨
      env.pathExists (p.raw_audio_path.getD "") = false
  · rw [if_pos h1]
    exact Or.inl ⟨_, _, _, rfl, by simp, Or.inl rfl⟩
  rw [if_neg h1]
  rcases hap : env.ap with e | parsed <;> simp only [hap]
  · exact Or.inl ⟨_, _, _, rfl, by simp, Or.inr (Or.inl rfl)⟩
  · by_cases h2 : parsed.error.getD "" ≠ ""
    · rw [if_pos h2]
      exact Or.inl ⟨_, _, _, rfl, by simp, Or.inr (Or.inl rfl)⟩
    rw [if_neg h2]
    by_cases h3 : parsed.clean_wav_path.getD "" = "" ∨
        env.pathExists (parsed.clean_wav_path.getD "") = false
    · rw [if_pos h3]
      exact Or.inl ⟨_, _, _, rfl, by simp, Or.inr (Or.inl rfl)⟩
    rw [if_neg h3]
    by_cases h4 : env.tts.getD "" = ""
    · rw [if_pos h4]
      exact Or.inl ⟨_, _, _, rfl, by simp, Or.inr (Or.inr (Or.inl rfl))⟩
    rw [if_neg h4]
    rcases hprep : env.prep with e | u <;> simp only [hprep]
    · exact Or.inl ⟨_, _, _, rfl, by simp, Or.inr (Or.inr (Or.inr (Or.inl rfl)))⟩
    · rcases hqc : env.qc with e | s <;> simp only [hqc]
      · exact Or.inl ⟨_, _, _, rfl, by simp, Or.inr (Or.inr (Or.inr (Or.inr rfl)))⟩
      · exact Or.inr ⟨_, rfl, by simp⟩

/-- Consequences of the master case analysis: presence in the index is
preserved, a normal exit has recorded a failed status, and the only
escaping exception is the result-assembly AttributeError. -/
theorem run_body_spec (jid : String) (p : Payload) (env : OrchEnv) (st : StoreState) :
    (((run_clone_job_body jid p env st).1.mem jid).isSome = (st.mem jid).isSome) ∧
    ((run_clone_job_body jid p env st).2.1 = none →
      jobStatus (run_clone_job_body jid p env st).1 jid =
        if (st.mem jid).isSome then some "failed" else none) ∧
    (∀ e, (run_clone_job_body jid p env st).2.1 = some e →
      e = "'str' object has no attribute 'get'") := by
  rcases run_body_master jid p env st with
    ⟨e, stPre, tr, hb, hpres, _⟩ | ⟨stPre, hb, hpres⟩ <;> rw [hb] <;>
    refine ⟨by simp [hpres], ?_, ?_⟩
  · intro _
    simp [hpres]
  · intro e' he'
    exact absurd he' (by simp)
  · intro h
    exact absurd h (by simp)
  · intro e' he'
    simpa using he'.symm

/-- The orchestrator wrapper returns the body's trace unchanged. -/
theorem run_clone_job_trace_eq (jid : String) (p : Payload) (env : OrchEnv)
    (st : StoreState) :
    (run_clone_job jid p env st).2 = (run_clone_job_body jid p env st).2.2 := by
  unfold run_clone_job
  rcases hb : run_clone_job_body jid p env st with ⟨st', eo, tr⟩
  cases eo <;> simp

/-- The body's possible stage-call traces. -/
theorem run_trace_cases (jid : String) (p : Payload) (env : OrchEnv) (st : StoreState) :
    (run_clone_job jid p env st).2 = [] ∨
    (run_clone_job jid p env st).2 = [StageCall.preprocess] ∨
    (run_clone_job jid p env st).2 = [StageCall.preprocess, StageCall.synthesize] ∨
    (run_clone_job jid p env st).2 =
      [StageCall.preprocess, StageCall.synthesize, StageCall.prepare] ∨
    (run_clone_job jid p env st).2 =
      [StageCall.preprocess, StageCall.synthesize, StageCall.prepare, StageCall.qc] := by
  rw [run_clone_job_trace_eq]
  rcases run_body_master jid p env st with
    ⟨e, stPre, tr, hb, _, htr⟩ | ⟨stPre, hb, _⟩ <;> rw [hb]
  · simpa using htr
  · simp

/-- Claim C9: the orchestrator is a fault barrier.  For every
environment (hence for every combination of stage successes, stage
exceptions, and the exception the result-assembly line raises), the job
never ends in a non-terminal status, and an exception that escapes the
body is converted into a failed record carrying the orchestration-error
message rather than propagating (the model function is total, so
nothing propagates out of `run_clone_job`). -/
theorem orchestrator_fault_barrier (jid : String) (p : Payload) (env : OrchEnv)
    (st : StoreState) (hmem : (st.mem jid).isSome = true) :
    (jobStatus (run_clone_job jid p env st).1 jid = some "failed" ∨
     jobStatus (run_clone_job jid p env st).1 jid = some "completed") ∧
    (∀ e, (run_clone_job_body jid p env st).2.1 = some e →
      jobStatus (run_clone_job jid p env st).1 jid = some "failed" ∧
      jobError (run_clone_job jid p env st).1 jid =
        some ("Orchestration error: " ++ e)) := by
  obtain ⟨hpres, hnone, _⟩ := run_body_spec jid p env st
  constructor
  · left
    unfold run_clone_job
    cases hb : run_clone_job_body jid p env st with
    | mk st' rest =>
      obtain ⟨eo, tr⟩ := rest
      cases eo with
      | none =>
        rw [hb] at hnone
        simpa [hmem] using hnone rfl
      | some e =>
        rw [hb] at hpres
        simp only at hpres
        simp [hpres, hmem]
  · intro e he
    unfold run_clone_job
    cases hb : run_clone_job_body jid p env st with
    | mk st' rest =>
      obtain ⟨eo, tr⟩ := rest
      rw [hb] at he
      simp only at he
      cases eo with
      | none => exact absurd he (by simp)
      | some e' =>
        have hee : e' = e := by simpa using he
        subst hee
        rw [hb] at hpres
        simp only at hpres
        simp [hpres, hmem]

/-- Witness for C9 at a concrete store, payload and environment in
which the QC invocation returns its JSON string and the assembly line's
AttributeError escapes to the outer handler. -/
theorem orchestrator_fault_barrier_witness :
    jobStatus (run_clone_job "job1" samplePayload sampleEnvOkQc stWithJob).1 "job1" =
      some "failed" ∧
    jobError (run_clone_job "job1" samplePayload sampleEnvOkQc stWithJob).1 "job1" =
      some "Orchestration error: 'str' object has no attribute 'get'" := by
  have h : ((stWithJob).mem "job1").isSome = true := by decide
  have hb : (run_clone_job_body "job1" samplePayload sampleEnvOkQc stWithJob).2.1 =
      some "'str' object has no attribute 'get'" := by decide
  exact (orchestrator_fault_barrier "job1" samplePayload sampleEnvOkQc stWithJob h).2 _ hb

/-- Claim C6: the policy guard checks consent first and short-circuits,
so a payload without consent is rejected with exactly the
`"missing consent"` reason whatever its other fields; the orchestrator
then records the job as failed with the corresponding message and
invokes no pipeline stage collaborator (empty stage trace). -/
theorem missing_consent_blocks_pipeline (jid : String) (p : Payload) (env : OrchEnv)
    (st : StoreState) (hmem : (st.mem jid).isSome = true)
    (hc : p.consent_flag.getD false = false) :
    policy_guard p = some "missing consent" ∧
    jobStatus (run_clone_job jid p env st).1 jid = some "failed" ∧
    jobError (run_clone_job jid p env st).1 jid =
      some "Input unusable: missing consent" ∧
    (run_clone_job jid p env st).2 = [] := by
  have hg : policy_guard p = some "missing consent" := by
    unfold policy_guard
    simp [hc]
  refine ⟨hg, ?_, ?_, ?_⟩ <;>
  · unfold run_clone_job run_clone_job_body
    rw [hg]
    try simp [hmem]

/-- Witness for C6: concrete no-consent payload (all other fields
admissible) against a live store and healthy environment. -/
theorem missing_consent_blocks_pipeline_witness :
    policy_guard noConsentPayload = some "missing consent" ∧
    jobStatus (run_clone_job "job1" noConsentPayload sampleEnv stWithJob).1 "job1" =
      some "failed" ∧
    jobError (run_clone_job "job1" noConsentPayload sampleEnv stWithJob).1 "job1" =
      some "Input unusable: missing consent" ∧
    (run_clone_job "job1" noConsentPayload sampleEnv stWithJob).2 = [] := by
  have h1 : ((stWithJob).mem "job1").isSome = true := by decide
  have h2 : noConsentPayload.consent_flag.getD false = false := by decide
  exact missing_consent_blocks_pipeline "job1" noConsentPayload sampleEnv stWithJob h1 h2

/-- Claim C2 (counterexample): the first-failure retry behaviour does
not match the claim.  At the QC-tool level the recommended adjusted
similarity boost is `round(min(original + bump, cap), 3)`, which is not
equal to `min(original + bump, cap)` (here `0.778` versus `0.77815`);
and at the orchestrator level a failing first verification triggers no
re-invocation of the Synthesize stage at all: the QC call (which in the
source passes keyword arguments the tool's signature rejects and so
raises) is made once, the job fails, and the stage trace holds exactly
one synthesize call. -/
theorem qc_retry_counterexample :
    (qc_tool_run "hi" "/tmp/g.wav" cexSettings false none (some (1/2))).decision
      = "retry" ∧
    (qc_tool_run "hi" "/tmp/g.wav" cexSettings false none (some (1/2))).recommended_settings.map
        QcSettings.similarity_boost = some (some (778/1000)) ∧
    ((778 : Rat)/1000 ≠ min ((72815 : Rat)/100000 + 5/100) (95/100)) ∧
    (run_clone_job "job1" samplePayload sampleEnv stWithJob).2.count
        StageCall.synthesize = 1 ∧
    jobStatus (run_clone_job "job1" samplePayload sampleEnv stWithJob).1 "job1" =
      some "failed" ∧
    jobError (run_clone_job "job1" samplePayload sampleEnv stWithJob).1 "job1" =
      some "QC check failed: _run() got an unexpected keyword argument 'gates'" := by
  refine ⟨?_, ?_, ?_, by decide, by decide, by decide⟩
  · simp only [qc_tool_run, calculate_wer, calculate_similarity, cexSettings,
      qcMaxWer, qcMinCosine, qcBump, qcCap, Option.getD]
    norm_num [min_def]
  · simp only [qc_tool_run, calculate_wer, calculate_similarity, cexSettings,
      qcMaxWer, qcMinCosine, qcBump, qcCap, Option.getD]
    norm_num [min_def, pyRoundTo]
  · norm_num [min_def]

/-- Claim C2 (amended): when the first evaluation fails its cosine gate
and no retry has been used, the QC tool returns decision `"retry"` with
recommended similarity boost `round(min(original + bump, cap), 3)`; the
`retries_used` field of any tool output, when present, is `0` or `1`;
and the orchestrator itself never re-invokes the Synthesize stage — it
performs at most one synthesize call and at most one QC call per job,
whatever the environment does. -/
theorem qc_single_bounded_retry :
    (∀ (text gen : String) (cs : QcSettings) (asr : Option String) (cosEmb : Option Rat),
      calculate_similarity cosEmb < qcMinCosine cs →
      (qc_tool_run text gen cs false asr cosEmb).decision = "retry" ∧
      (qc_tool_run text gen cs false asr cosEmb).recommended_settings.map
          QcSettings.similarity_boost =
        some (some (pyRoundTo 3
          (min (cs.similarity_boost.getD (7/10) + qcBump cs) (qcCap cs))))) ∧
    (∀ (text gen : String) (cs : QcSettings) (is_retry : Bool) (asr : Option String)
        (cosEmb : Option Rat),
      (qc_tool_run text gen cs is_retry asr cosEmb).retries_used = none ∨
      (qc_tool_run text gen cs is_retry asr cosEmb).retries_used = some 0 ∨
      (qc_tool_run text gen cs is_retry asr cosEmb).retries_used = some 1) ∧
    (∀ (jid : String) (p : Payload) (env : OrchEnv) (st : StoreState),
      (run_clone_job jid p env st).2.count StageCall.synthesize ≤ 1 ∧
      (run_clone_job jid p env st).2.count StageCall.qc ≤ 1) := by
  refine ⟨?_, ?_, ?_⟩
  · intro text gen cs asr cosEmb h
    have hnc : ¬ (calculate_similarity cosEmb ≥ qcMinCosine cs) := not_le.mpr h
    have hcond : ¬ ((calculate_wer text asr).2 ≤ qcMaxWer cs ∧
        calculate_similarity cosEmb ≥ qcMinCosine cs) := fun hcon => hnc hcon.2
    unfold qc_tool_run
    simp [hcond, hnc]
  · intro text gen cs is_retry asr cosEmb
    unfold qc_tool_run
    by_cases h1 : (calculate_wer text asr).2 ≤ qcMaxWer cs ∧
        calculate_similarity cosEmb ≥ qcMinCosine cs
    · cases is_retry <;> simp [h1]
    · cases is_retry <;> simp [h1]
  · intro jid p env st
    rcases run_trace_cases jid p env st with h | h | h | h | h <;> rw [h] <;>
      exact ⟨by decide, by decide⟩

/-- Witness for the amended C2 at concrete settings whose cosine gate
fails on the first evaluation. -/
theorem qc_single_bounded_retry_witness :
    (qc_tool_run "hi" "/tmp/g.wav" {} false none (some 0)).decision = "retry" ∧
    (qc_tool_run "hi" "/tmp/g.wav" {} false none (some 0)).recommended_settings.map
        QcSettings.similarity_boost = some (some (75/100)) ∧
    (run_clone_job "job1" samplePayload sampleEnv stWithJob).2.count
        StageCall.synthesize ≤ 1 := by
  have h : calculate_similarity (some 0) < qcMinCosine {} := by
    norm_num [calculate_similarity, qcMinCosine]
  have h2 := qc_single_bounded_retry.1 "hi" "/tmp/g.wav" {} none (some 0) h
  refine ⟨h2.1, h2.2.trans ?_, (qc_single_bounded_retry.2.2 "job1" samplePayload
    sampleEnv stWithJob).1⟩
  norm_num [qcBump, qcCap, pyRoundTo, min_def]

/-! ### Claims about the synthesis cache -/

/-- Claim C3 (counterexample): the synthesis helper the orchestrator
actually uses, `synthesize_with_elevenlabs_simple`, performs no caching
at all: two calls with the identical (voice, text, mode) tuple each
invoke the external provider, so the pair performs two billed calls,
not at most one; its return value is just an optional base64 string,
with no cached handle and no `was_cached` flag. -/
theorem simple_tts_no_cache_counterexample :
    (synthesize_with_elevenlabs_simple "V1" "Hello world" "narration"
        { clientAvailable := true, convert := .ok "QUJD" }).2 = 1 ∧
    ¬ ((synthesize_with_elevenlabs_simple "V1" "Hello world" "narration"
          { clientAvailable := true, convert := .ok "QUJD" }).2 +
       (synthesize_with_elevenlabs_simple "V1" "Hello world" "narration"
          { clientAvailable := true, convert := .ok "QUJD" }).2 ≤ 1) := by
  exact ⟨by decide, by decide⟩

/-- Claim C3 (amended): the `ElevenLabsTool` path is content-addressed.
Its cache key is injective in the full parameter tuple (changing any
single parameter changes the canonical key object that is serialized
and hashed); with the key already cached, a call returns the same
content-addressed handle without invoking the provider; and after a
first successful synthesis, a second identical call returns the same
handle with no provider call.  No `was_cached` flag exists — the tool
returns only the path. -/
theorem tts_cache_idempotent_and_injective :
    (∀ p q : TtsParams, cacheKey p = cacheKey q ↔ p = q) ∧
    (∀ (p : TtsParams) (cache : TtsCache) (pb : Option String),
      cache (cacheKey p) = true →
      (elevenlabs_tool_run p cache pb).handle = cacheKey p ∧
      (elevenlabs_tool_run p cache pb).providerCalls = 0) ∧
    (∀ (p : TtsParams) (cache : TtsCache) (b : String) (pb2 : Option String),
      cache (cacheKey p) = false → b ≠ "" →
      (elevenlabs_tool_run p cache (some b)).providerCalls = 1 ∧
      (elevenlabs_tool_run p
          (elevenlabs_tool_run p cache (some b)).cache pb2).providerCalls = 0 ∧
      (elevenlabs_tool_run p
          (elevenlabs_tool_run p cache (some b)).cache pb2).handle =
        (elevenlabs_tool_run p cache (some b)).handle) := by
  refine ⟨?_, ?_, ?_⟩
  · intro p q
    constructor
    · intro h
      cases p
      cases q
      simp [cacheKey] at h
      simp_all
    · rintro rfl
      rfl
  · intro p cache pb h
    simp [elevenlabs_tool_run, h]
  · intro p cache b pb2 hc hb
    simp [elevenlabs_tool_run, hc, hb]

/-- Witness for the amended C3: changing only `speed` changes the key;
a miss then a successful synthesis then an identical call hits the
cache with no further provider invocation. -/
theorem tts_cache_idempotent_and_injective_witness :
    cacheKey ttsParamsA ≠ cacheKey ttsParamsFaster ∧
    (elevenlabs_tool_run ttsParamsA (fun _ => false) (some "bytes")).providerCalls = 1 ∧
    (elevenlabs_tool_run ttsParamsA
        (elevenlabs_tool_run ttsParamsA (fun _ => false) (some "bytes")).cache
        none).providerCalls = 0 := by
  have hinj := (tts_cache_idempotent_and_injective.1 ttsParamsA ttsParamsFaster).mp
  have hpair := tts_cache_idempotent_and_injective.2.2 ttsParamsA (fun _ => false)
    "bytes" none rfl (by decide)
  refine ⟨fun h => ?_, hpair.1, hpair.2.1⟩
  have := hinj h
  have hne : ttsParamsA ≠ ttsParamsFaster := by
    simp only [ttsParamsA, ttsParamsFaster, ne_eq, TtsParams.mk.injEq, not_and]
    intro _ _ _ _ _
    norm_num
  exact hne this

/-! ### Claim about the admission length cap -/

/-- Claim C10: the text-length cap of the policy guard is read from the
submitted payload itself (`limits.max_text_length`, defaulting to 800
when absent), so the cap is caller-supplied: any consented ElevenLabs
payload whose `limits.max_text_length` is `L` passes the length check
for text up to `L` characters, while the same text is rejected as
`"text too long"` under the 800 default when no `limits` object is
sent. -/
theorem max_text_length_caller_supplied :
    (∀ (p : Payload) (L : Int), p.consent_flag = some true →
      pyStrip (pyLower (p.provider.getD "")) = "elevenlabs" →
      p.limits = some { max_text_length := some L } →
      ((p.text.getD "").length : Int) ≤ L →
      policy_guard p = none) ∧
    (∀ p : Payload, p.consent_flag = some true →
      pyStrip (pyLower (p.provider.getD "")) = "elevenlabs" →
      p.limits = none →
      ((p.text.getD "").length : Int) > 800 →
      policy_guard p = some "text too long") := by
  constructor
  · intro p L hcons hprov hlim hlen
    unfold policy_guard
    rw [hcons, hprov, hlim]
    simp only [Option.getD_some]
    rw [if_neg (by simp), if_neg (by simp)]
    rw [if_neg (not_lt.mpr hlen)]
  · intro p hcons hprov hlim hlen
    unfold policy_guard
    rw [hcons, hprov, hlim]
    simp only [Option.getD_none, Option.getD_some]
    rw [if_neg (by simp), if_neg (by simp)]
    rw [if_pos ?_]
    show (800 : Int) < (p.text.getD "").length
    exact hlen

/-- Witness for C10: a 900-character text passes under a caller-sent
cap of 100000 and is rejected under the absent-limits default of 800. -/
theorem max_text_length_caller_supplied_witness :
    policy_guard bigLimitPayload = none ∧
    policy_guard noLimitPayload = some "text too long" := by
  have h1 : longText.length = 900 := by
    have h0 : longText.length = (List.replicate 900 'a').length := rfl
    rw [h0, List.length_replicate]
  constructor
  · refine max_text_length_caller_supplied.1 bigLimitPayload 100000 rfl (by decide)
      rfl ?_
    show ((longText.length : Int)) ≤ 100000
    rw [h1]
    norm_num
  · refine max_text_length_caller_supplied.2 noLimitPayload rfl (by decide)
      rfl ?_
    show ((longText.length : Int)) > 800
    rw [h1]
    norm_num
